import Mathlib

/-!
Verification of the deterministic intent-to-tool mapping engine and
conversation persistence protocol of a task-management chat backend.

The Python sources are shallowly embedded as executable Lean functions:
  app/services/intent_mapping.py  -> Intent, INTENT_PATTERNS, extract_intent
  app/services/agent.py           -> extract_parameters, process_message,
                                     generate_response
  app/services/conversation.py    -> load_conversation, persist messages
  mcp_servers/task_mcp/main.py    -> complete_task

Strings are modelled as lists of characters; Python float confidence tiers
are modelled as exact rationals (all comparisons the code performs on the
tiers 0.0, 0.7, 1.0 against the 0.5 threshold coincide with float
behaviour); datetimes and UUIDs are opaque naturals supplied as oracle
parameters. The anchored regular expressions of the source are embedded as
token lists whose matching function agrees with Python re.search semantics
on the (pre-stripped) inputs the code feeds them.
-/

namespace Taskify

abbrev Str := List Char

/-- Whitespace characters recognised by Python str.strip and the regex
class backslash-s, restricted to ASCII (all inputs of interest are ASCII). -/
def isPyWs (c : Char) : Bool :=
  c = ' ' || c = '\t' || c = '\n' || c = '\r' || c = '\x0b' || c = '\x0c'

/-- Python str.strip: drop leading and trailing whitespace. -/
def pyStrip (s : Str) : Str :=
  ((s.dropWhile isPyWs).reverse.dropWhile isPyWs).reverse

/-- Python str.lower, ASCII fragment (Char.toLower lowers A-Z only). -/
def pyLower (s : Str) : Str := s.map Char.toLower

/-- Normalisation performed first by extract_intent:
user_message.strip().lower(). -/
def normalize (s : Str) : Str := pyLower (pyStrip s)

/-- Enumeration of all supported intents
(class Intent in app/services/intent_mapping.py). -/
inductive Intent where
  | ADD
  | LIST
  | GET
  | UPDATE
  | DELETE
  | COMPLETE
  | UNKNOWN
deriving DecidableEq, Repr

/-- The string value attached to each Intent enum member. -/
def Intent.value : Intent → Str
  | .ADD => "add_task".data
  | .LIST => "list_tasks".data
  | .GET => "get_task".data
  | .UPDATE => "update_task".data
  | .DELETE => "delete_task".data
  | .COMPLETE => "complete_task".data
  | .UNKNOWN => "unknown".data

/-- Token of an anchored intent pattern: a literal fragment, or a
one-or-more whitespace element (backslash-s-plus in the source regexes). -/
inductive RTok where
  | lit : Str → RTok
  | ws : RTok
deriving DecidableEq

abbrev RPat := List RTok

/-- Shorthand for a literal token built from a string literal. -/
def L (s : String) : RTok := RTok.lit s.data

/-- Matching an anchored pattern against the start of a message.
The whitespace element consumes a maximal nonempty run; this is equivalent
to the regex backtracking semantics for every pattern in the table, since
whatever follows a whitespace element there never begins with whitespace. -/
def matchToks : RPat → Str → Bool
  | [], _ => true
  | RTok.lit l :: ps, s =>
      if l.isPrefixOf s then matchToks ps (s.drop l.length) else false
  | RTok.ws :: ps, s =>
      let rest := s.dropWhile isPyWs
      if rest.length < s.length then matchToks ps rest else false

/-- Per-intent rule set: keyword substrings and anchored patterns. -/
structure IntentConfig where
  keywords : List Str
  patterns : List RPat
deriving DecidableEq

/-- The official intent mapping table (IntentMapper.INTENT_PATTERNS),
in source declaration order. -/
def INTENT_PATTERNS : List (Intent × IntentConfig) := [
  (Intent.ADD,
    { keywords := ["add", "create", "new task", "add task", "create task",
        "remember", "make a task", "i need to"].map String.data,
      patterns := [
        [L "add", RTok.ws],
        [L "create", RTok.ws],
        [L "new", RTok.ws, L "task", RTok.ws],
        [L "remember", RTok.ws],
        [L "add task"],
        [L "create task"],
        [L "i need to "]] }),
  (Intent.LIST,
    { keywords := ["list", "show", "all tasks", "my tasks", "what tasks",
        "tasks do i have", "what do i need"].map String.data,
      patterns := [
        [L "list", RTok.ws],
        [L "show", RTok.ws],
        [L "all", RTok.ws, L "tasks"],
        [L "my", RTok.ws, L "tasks"],
        [L "what tasks"],
        [L "what do i"]] }),
  (Intent.GET,
    { keywords := ["get", "show task", "details", "tell me about"].map String.data,
      patterns := [
        [L "get", RTok.ws],
        [L "show task"],
        [L "details", RTok.ws],
        [L "tell me about"]] }),
  (Intent.UPDATE,
    { keywords := ["update", "edit", "change", "modify", "rename"].map String.data,
      patterns := [
        [L "update", RTok.ws],
        [L "edit", RTok.ws],
        [L "change", RTok.ws],
        [L "modify", RTok.ws],
        [L "rename", RTok.ws]] }),
  (Intent.DELETE,
    { keywords := ["delete", "remove", "trash", "discard", "get rid of"].map String.data,
      patterns := [
        [L "delete", RTok.ws],
        [L "remove", RTok.ws],
        [L "trash", RTok.ws],
        [L "discard", RTok.ws],
        [L "get rid of"]] }),
  (Intent.COMPLETE,
    { keywords := ["complete", "done", "finish", "check off", "mark done",
        "mark as done"].map String.data,
      patterns := [
        [L "complete", RTok.ws],
        [L "done", RTok.ws, L "with"],
        [L "finish", RTok.ws],
        [L "check off"],
        [L "mark", RTok.ws, L "done"],
        [L "mark as done"]] })]

/-- One intent rule set matches the message via some anchored pattern. -/
def patternHit (cfg : IntentConfig) (message : Str) : Bool :=
  cfg.patterns.any (fun p => matchToks p message)

/-- Python str.find: least index at which the needle occurs as a
contiguous substring of the haystack, none when absent. -/
def pyFind (needle hay : Str) : Option Nat :=
  (List.range (hay.length + 1)).find? (fun i => needle.isPrefixOf (hay.drop i))

/-- Python membership test x in s, which holds when s.find(x) succeeds. -/
def containsSub (needle hay : Str) : Bool := (pyFind needle hay).isSome

/-- Keyword test of the source: keyword.lower() in message.lower(). -/
def kwHit (kw : Str) (message : Str) : Bool :=
  containsSub (pyLower kw) (pyLower message)

/-- One intent rule set matches the message via some keyword substring. -/
def keywordHit (cfg : IntentConfig) (message : Str) : Bool :=
  cfg.keywords.any (fun kw => kwHit kw message)

/-- First intent (in table order) with a matching anchored pattern. -/
def firstPatternIntent (message : Str) : Option Intent :=
  (INTENT_PATTERNS.find? (fun p => patternHit p.2 message)).map Prod.fst

/-- First intent (in table order) with a keyword occurring as substring. -/
def firstKeywordIntent (message : Str) : Option Intent :=
  (INTENT_PATTERNS.find? (fun p => keywordHit p.2 message)).map Prod.fst

/-- The keyword-tier confidence value 0.7 of the source, as an exact
rational. -/
def conf07 : ℚ := mkRat 7 10

/-- The orchestrator confidence threshold 0.5, as an exact rational. -/
def confHalf : ℚ := mkRat 1 2

/-- Body of IntentMapper.extract_intent after normalisation: pattern pass,
then keyword pass, then the UNKNOWN default. -/
def extract_intent_core (message : Str) : Intent × ℚ :=
  match firstPatternIntent message with
  | some intent => (intent, 1)
  | none =>
    match firstKeywordIntent message with
    | some intent => (intent, conf07)
    | none => (Intent.UNKNOWN, 0)

/-- IntentMapper.extract_intent: normalise, then run the two passes. -/
def extract_intent (user_message : Str) : Intent × ℚ :=
  extract_intent_core (normalize user_message)

/-- IntentMapper.get_tool_name. -/
def get_tool_name (intent : Intent) : Str := intent.value

/-- IntentMapper.get_fallback_response. -/
def get_fallback_response (intent : Intent) : Str :=
  match intent with
  | Intent.ADD => "I couldn\x27t create that task. Please try again.".data
  | Intent.LIST => "I couldn\x27t retrieve your tasks. Please try again.".data
  | Intent.GET => "I couldn\x27t find that task. Please try again.".data
  | Intent.UPDATE => "I couldn\x27t update that task. Please try again.".data
  | Intent.DELETE => "I couldn\x27t delete that task. Please try again.".data
  | Intent.COMPLETE => "I couldn\x27t mark that task. Please try again.".data
  | Intent.UNKNOWN => "I didn\x27t understand your request. You can ask me to create, list, complete, update, or delete tasks.".data

/-! ### Parameter extraction (AgentService._extract_parameters) -/

/-- Tool parameters: a mapping that always carries the acting user identity;
the optional fields are present exactly when the source dict holds the key. -/
structure ToolParams where
  user_id : Str
  title : Option Str := none
  include_completed : Option Bool := none
  task_id : Option Str := none
  completed : Option Bool := none
deriving DecidableEq, Repr

/-- Token of an anchored title-extraction pattern; every such pattern in the
source ends with a captured nonempty remainder, so the capture is implicit
at the end of the token list. -/
inductive CTok where
  | lit : Str → CTok
  | alts : List Str → CTok
  | ws : CTok
deriving DecidableEq

/-- Match an anchored capture pattern of the ADD branch against an already
stripped lower-cased message, returning the captured remainder. The final
dot-plus-dollar of each source pattern demands a nonempty remainder free of
newline characters; on stripped input this, with maximal-munch whitespace,
is exactly the regex backtracking semantics. -/
def matchCap : List CTok → Str → Option Str
  | [], s => if !s.isEmpty && !s.contains '\n' then some s else none
  | CTok.lit l :: ps, s =>
      if l.isPrefixOf s then matchCap ps (s.drop l.length) else none
  | CTok.alts as :: ps, s =>
      match as.find? (fun a => a.isPrefixOf s) with
      | some a => matchCap ps (s.drop a.length)
      | none => none
  | CTok.ws :: ps, s =>
      let rest := s.dropWhile isPyWs
      if rest.length < s.length then matchCap ps rest else none

/-- The ordered ADD title patterns of the source. -/
def addPatterns : List (List CTok) := [
  [CTok.alts (["add", "create", "remember"].map String.data), CTok.ws],
  [CTok.alts (["add", "create", "remember"].map String.data), CTok.ws,
    CTok.lit "task".data, CTok.ws],
  [CTok.lit "new".data, CTok.ws, CTok.lit "task".data, CTok.ws],
  [CTok.lit "task".data, CTok.ws, CTok.lit "to".data, CTok.ws]]

/-- The fixed fallback keyword list of the ADD branch, in priority order. -/
def fallbackKeywords : List Str := ["add", "create", "remember", "task"].map String.data

/-- The ADD fallback loop: locate each keyword in the lower-cased input,
take the trimmed original-case suffix after it, stop at the first nonempty
suffix; when the loop completes without one, the for-else arm of the source
sets the placeholder title. -/
def fallbackScan : List Str → Str → Str
  | [], _ => "Untitled task".data
  | kw :: kws, input =>
      match pyFind kw (pyLower input) with
      | some pos =>
          let t := pyStrip (input.drop (pos + kw.length))
          if t.isEmpty then fallbackScan kws input else t
      | none => fallbackScan kws input

/-- Leftmost maximal run of decimal digits, as matched by re.search of
digit-plus in the COMPLETE, DELETE and GET branches. -/
def firstDigitRun : Str → Option Str
  | [] => none
  | c :: cs =>
      if c.isDigit then some (List.takeWhile Char.isDigit (c :: cs))
      else firstDigitRun cs

/-- Greedy final capture dot-plus of the UPDATE pattern: the maximal
nonempty run of non-newline characters at the current position. -/
def dotPlus (w : Str) : Option Str :=
  let cap := w.takeWhile (fun c => c != '\n')
  if cap.isEmpty then none else some cap

/-- Candidate consumption lengths for a one-or-more whitespace element,
greedy order: maximal run first, down to a single character. -/
def wsChoices (u : Str) : List Nat :=
  (List.range (u.takeWhile isPyWs).length).reverse.map (· + 1)

/-- Tail of the UPDATE pattern after the digit group: one-or-more
whitespace, an optional literal to with whitespace, then the capture. -/
def updateTail (digits : Str) (u : Str) : Option (Str × Str) :=
  (wsChoices u).findSome? (fun k =>
    let v := u.drop k
    (if ("to".data).isPrefixOf v then
        (wsChoices (v.drop 2)).findSome? (fun j =>
          (dotPlus ((v.drop 2).drop j)).map (fun cap => (digits, cap)))
      else none).orElse
    (fun _ => (dotPlus v).map (fun cap => (digits, cap))))

/-- Digit group of the UPDATE pattern followed by its tail. A shorter than
maximal digit run can never succeed, as the following element requires
whitespace and the surrendered character would be a digit. -/
def updateDigits (u : Str) : Option (Str × Str) :=
  let d := u.takeWhile Char.isDigit
  if d.isEmpty then none else updateTail d (u.drop d.length)

/-- One attempt of the UPDATE pattern at a fixed start position: the
optional task-plus-whitespace prefix is tried greedily first. -/
def updateAt (t : Str) : Option (Str × Str) :=
  (if ("task".data).isPrefixOf t then
      (wsChoices (t.drop 4)).findSome? (fun k => updateDigits ((t.drop 4).drop k))
    else none).orElse
  (fun _ => updateDigits t)

/-- Scan of the UPDATE pattern over the raw input, as re.search: leftmost start
position wins, exactly as the scanning loop of the regex engine. -/
def searchUpdate : Str → Option (Str × Str)
  | [] => none
  | c :: cs => (updateAt (c :: cs)).orElse (fun _ => searchUpdate cs)

/-- AgentService._extract_parameters. The ADD branch matches its anchored
patterns against the lower-cased stripped input and falls back to keyword
slicing of the original input; the remaining branches mirror the source. -/
def extract_parameters (intent : Intent) (user_input : Str) (user_id : Str) :
    ToolParams :=
  match intent with
  | Intent.ADD =>
      let s := pyStrip (pyLower user_input)
      match addPatterns.findSome? (fun p => matchCap p s) with
      | some cap => { user_id := user_id, title := some (pyStrip cap) }
      | none =>
          { user_id := user_id,
            title := some (fallbackScan fallbackKeywords user_input) }
  | Intent.LIST =>
      { user_id := user_id,
        include_completed := some (!containsSub "completed".data (pyLower user_input)) }
  | Intent.COMPLETE =>
      { user_id := user_id, task_id := firstDigitRun user_input,
        completed := some (!containsSub "uncomplete".data (pyLower user_input)) }
  | Intent.DELETE =>
      { user_id := user_id, task_id := firstDigitRun user_input }
  | Intent.UPDATE =>
      match searchUpdate user_input with
      | some (tid, rest) =>
          { user_id := user_id, task_id := some tid, title := some (pyStrip rest) }
      | none => { user_id := user_id }
  | Intent.GET =>
      { user_id := user_id, task_id := firstDigitRun user_input }
  | Intent.UNKNOWN => { user_id := user_id }

/-! ### Orchestrator (AgentService.process_message, _generate_response)

Logging calls of the source are pure side channels and are dropped; the
Task Store is the external collaborator and enters as an oracle function,
every exception of the real call having already been folded by
_invoke_tool into an error dictionary. -/

/-- One task dictionary inside a list_tasks result, with the fields the
response generator reads; absent keys are none. -/
structure TaskRow where
  id : Option Nat := none
  title : Option Str := none
  is_completed : Option Bool := none
deriving DecidableEq

/-- A Task Store result dictionary, with the keys the orchestrator and the
response generator read. A none field stands for an absent key (for the
description field this also conflates a present null value, which the
claims never exercise). -/
structure ToolResult where
  error : Option Str := none
  code : Option Nat := none
  id : Option Nat := none
  title : Option Str := none
  description : Option Str := none
  is_completed : Option Bool := none
  tasks : Option (List TaskRow) := none
  success : Option Bool := none
  task_id : Option Str := none
deriving DecidableEq

/-- Python truthiness of a fetched optional string value, as tested by
the orchestrator on the error field. -/
def truthyStr : Option Str → Bool
  | none => false
  | some s => !s.isEmpty

/-- Rendering of an optional integer inside an f-string: the number, or
the text None for an absent value. -/
def pyShowOptNat : Option Nat → Str
  | none => "None".data
  | some n => (toString n).data

/-- Rendering of an optional string inside an f-string. -/
def pyShowOptStr : Option Str → Str
  | none => "None".data
  | some s => s

/-- The hard-coded advisory user-context stub of Phase 5. -/
structure UserContext where
  name : Str
  timezone : Str
deriving DecidableEq

def stubUserContext : UserContext :=
  { name := "User".data, timezone := "UTC".data }

/-- One rendered line of the list response. The checkmark literal carries
the mojibake characters present in the source file itself. -/
def renderTaskLine (t : TaskRow) : Str :=
  "- [".data ++ pyShowOptNat t.id ++ "] ".data ++ pyShowOptStr t.title
    ++ " ".data
    ++ (if t.is_completed.getD false then "âœ“".data else [])

/-- AgentService._generate_response: template selection keyed by intent.
The user context parameter is accepted and, as in the source, never read.
String prefixes reproduce the source bytes exactly. -/
def generate_response (intent : Intent) (tool_result : ToolResult)
    (user_context : Option UserContext) : Str :=
  match intent with
  | Intent.ADD =>
      "âœ… Created task: ".data ++ (tool_result.title.getD "task".data)
  | Intent.LIST =>
      let tasks := tool_result.tasks.getD []
      if tasks.isEmpty then "You don\x27t have any tasks yet.".data
      else
        "Here are your tasks:\n".data
          ++ List.intercalate "\n".data (tasks.map renderTaskLine)
  | Intent.COMPLETE =>
      "âœ… Marked task ".data ++ pyShowOptNat tool_result.id
        ++ " as done.".data
  | Intent.DELETE =>
      "ğŸ—‘ï¸ Deleted task ".data
        ++ pyShowOptNat tool_result.id ++ ".".data
  | Intent.UPDATE =>
      "âœï¸ Updated task: ".data
        ++ (tool_result.title.getD "task".data)
  | Intent.GET =>
      "ğŸ“‹ **".data ++ (tool_result.title.getD "Task".data)
        ++ "**\n".data ++ (tool_result.description.getD "No description".data)
  | Intent.UNKNOWN => "Operation completed.".data

/-- The fixed clarification text of the low-confidence branch. -/
def helpText : Str :=
  ("I didn\x27t understand your request. You can ask me to:\n"
    ++ "- Create a task (e.g., \x27add buy groceries\x27)\n"
    ++ "- List your tasks (e.g., \x27show all tasks\x27)\n"
    ++ "- Complete a task (e.g., \x27mark task 1 done\x27)\n"
    ++ "- Update a task (e.g., \x27change task 1 to buy milk\x27)\n"
    ++ "- Delete a task (e.g., \x27delete task 1\x27)").data

/-- The auditable record appended for a successful tool invocation. -/
structure ToolCallRecord where
  tool : Str
  parameters : ToolParams
  result : ToolResult
deriving DecidableEq

/-- Outcome of one process_message turn. The invoked field records every
Task Store call the turn performed, so that the absence of invocations is
expressible. -/
structure AgentResult where
  response : Str
  tool_calls : List ToolCallRecord
  invoked : List (Str × ToolParams)
deriving DecidableEq

/-- AgentService.process_message over a Task Store oracle. The
conversation identifier and history arguments of the source only feed
logging and the unused enrichment stub, and the enrichment never alters
the response templates; both facts are visible below. -/
def process_message (invoke : Str → ToolParams → ToolResult)
    (user_id : Str) (user_input : Str) (include_context : Bool) : AgentResult :=
  let ic := extract_intent user_input
  if ic.1 = Intent.UNKNOWN ∨ ic.2 < confHalf then
    { response := helpText, tool_calls := [], invoked := [] }
  else
    let tool_name := get_tool_name ic.1
    let params0 := extract_parameters ic.1 user_input user_id
    let params := { params0 with user_id := user_id }
    let tool_result := invoke tool_name params
    let user_context : Option UserContext :=
      if include_context && (tool_result.error = none : Bool) then
        some stubUserContext
      else none
    if truthyStr tool_result.error then
      { response := get_fallback_response ic.1, tool_calls := [],
        invoked := [(tool_name, params)] }
    else
      { response := generate_response ic.1 tool_result user_context,
        tool_calls := [{ tool := tool_name, parameters := params,
                         result := tool_result }],
        invoked := [(tool_name, params)] }

/-! ### Conversation service (app/services/conversation.py)

The relational store is a value: a list of conversation rows and a list of
message rows in insertion order. UUIDs and timestamps are opaque naturals
supplied by the caller (uuid4 and utcnow oracles). -/

structure Conversation where
  id : Nat
  user_id : Str
  created_at : Nat
  updated_at : Nat
deriving DecidableEq

structure Message where
  id : Nat
  conversation_id : Nat
  user_id : Str
  sender : Str
  content : Str
  tool_calls : Option (List ToolCallRecord) := none
  created_at : Nat
deriving DecidableEq

structure DB where
  conversations : List Conversation
  messages : List Message
deriving DecidableEq

/-- The two ValueError failures of load_conversation, distinguishable by
their messages. -/
inductive LoadError where
  | notFound
  | accessDenied
deriving DecidableEq

instance exceptDecEq {ε α : Type} [DecidableEq ε] [DecidableEq α] :
    DecidableEq (Except ε α)
  | Except.error e1, Except.error e2 =>
      if h : e1 = e2 then isTrue (by rw [h])
      else isFalse (fun hc => h (by injection hc))
  | Except.error _, Except.ok _ => isFalse (fun hc => Except.noConfusion hc)
  | Except.ok _, Except.error _ => isFalse (fun hc => Except.noConfusion hc)
  | Except.ok a1, Except.ok a2 =>
      if h : a1 = a2 then isTrue (by rw [h])
      else isFalse (fun hc => h (by injection hc))

/-- ORDER BY created_at ascending over the selected message rows. -/
def sortByCreated (ms : List Message) : List Message :=
  List.insertionSort (fun a b => a.created_at ≤ b.created_at) ms

instance : IsTotal Message (fun a b => a.created_at ≤ b.created_at) :=
  ⟨fun a b => Nat.le_total a.created_at b.created_at⟩

instance : IsTrans Message (fun a b => a.created_at ≤ b.created_at) :=
  ⟨fun _ _ _ h1 h2 => Nat.le_trans h1 h2⟩

/-- ConversationService.load_conversation: fetch the conversation row,
fail when absent, fail when owned by a different user, otherwise return it
with the messages of the conversation ordered by creation time. -/
def load_conversation (db : DB) (conversation_id : Nat) (user_id : Str) :
    Except LoadError (Conversation × List Message) :=
  match db.conversations.find? (fun c => c.id = conversation_id) with
  | none => Except.error LoadError.notFound
  | some conversation =>
      if conversation.user_id ≠ user_id then Except.error LoadError.accessDenied
      else
        Except.ok (conversation,
          sortByCreated (db.messages.filter
            (fun m => m.conversation_id = conversation_id)))

/-- ConversationService.persist_user_message: append one immutable user
message row. -/
def persist_user_message (db : DB) (conversation_id : Nat) (user_id : Str)
    (content : Str) (msg_id : Nat) (now : Nat) : DB × Message :=
  let m : Message :=
    { id := msg_id, conversation_id := conversation_id, user_id := user_id,
      sender := "user".data, content := content, tool_calls := none,
      created_at := now }
  ({ db with messages := db.messages ++ [m] }, m)

/-- ConversationService.persist_assistant_message: append one immutable
assistant message row carrying the optional tool-call payload. -/
def persist_assistant_message (db : DB) (conversation_id : Nat)
    (user_id : Str) (content : Str) (tool_calls : Option (List ToolCallRecord))
    (msg_id : Nat) (now : Nat) : DB × Message :=
  let m : Message :=
    { id := msg_id, conversation_id := conversation_id, user_id := user_id,
      sender := "assistant".data, content := content,
      tool_calls := tool_calls, created_at := now }
  ({ db with messages := db.messages ++ [m] }, m)

/-! ### Task MCP server (mcp_servers/task_mcp/main.py, complete_task)

A task row of the tasks table; identifiers are integer primary keys and
timestamps opaque naturals. -/

structure Task where
  id : Nat
  user_id : Str
  title : Str
  description : Option Str
  is_completed : Bool
  created_at : Nat
  updated_at : Nat
deriving DecidableEq

/-- Python int applied to a string: surrounding whitespace allowed, an
optional sign, then at least one decimal digit (digit-group underscores
are not modelled). Failure raises ValueError, here none. -/
def pyInt (s : Str) : Option Int :=
  let t := pyStrip s
  let core : Option (Bool × Str) :=
    match t with
    | '+' :: rest => some (false, rest)
    | '-' :: rest => some (true, rest)
    | rest => some (false, rest)
  match core with
  | some (neg, digits) =>
      if digits.isEmpty ∨ ¬ digits.all Char.isDigit then none
      else
        let n : Nat := digits.foldl (fun acc c => 10 * acc + (c.toNat - 48)) 0
        some (if neg then -(n : Int) else (n : Int))
  | none => none

/-- The WHERE clause of complete_task: primary key and owning user. -/
def taskMatch (n : Int) (uid : Str) (t : Task) : Bool :=
  ((t.id : Int) = n : Bool) && (t.user_id = uid : Bool)

/-- Replace the first row satisfying the predicate, leaving every other
row untouched: the effect of mutating the selected ORM row. -/
def replaceFirst (p : Task → Bool) (new : Task) : List Task → List Task
  | [] => []
  | t :: ts => if p t then new :: ts else t :: replaceFirst p new ts

/-- Result of a complete_task call: the returned task dictionary, or an
error dictionary with message and status code. -/
inductive CompleteResult where
  | ok : Task → CompleteResult
  | err : Str → Nat → CompleteResult
deriving DecidableEq

/-- TaskMCPServer.complete_task. Arguments mirror args.get: the task
identifier may be absent (then int raises TypeError, caught by the generic
handler as a 500) and the completed flag defaults to true. Returns the
updated table and the response dictionary. -/
def complete_task (tasks : List Task) (now : Nat) (user_id : Str)
    (task_id : Option Str) (completed : Option Bool) :
    List Task × CompleteResult :=
  match task_id with
  | none =>
      -- int of None raises TypeError; the generic handler wraps the
      -- interpreter-supplied text, elided here, into a 500 error.
      (tasks, CompleteResult.err "Failed to complete task".data 500)
  | some s =>
      match pyInt s with
      | none => (tasks, CompleteResult.err "Invalid task ID format".data 400)
      | some n =>
          match tasks.find? (taskMatch n user_id) with
          | none => (tasks, CompleteResult.err "Task not found".data 404)
          | some t =>
              let updated : Task :=
                { t with is_completed := completed.getD true, updated_at := now }
              (replaceFirst (taskMatch n user_id) updated tasks,
                CompleteResult.ok updated)

/-! ### Helper lemmas -/

/-- No row of the intent table carries the UNKNOWN intent. -/
theorem intentTable_fst_ne_unknown :
    ∀ p ∈ INTENT_PATTERNS, p.1 ≠ Intent.UNKNOWN := by decide

/-- The find? function returns the element at index k when it satisfies the predicate
and every earlier element does not. -/
theorem find?_eq_get_of_first {α : Type} (l : List α) (p : α → Bool) :
    ∀ (k : Nat) (hk : k < l.length), p (l.get ⟨k, hk⟩) = true →
    (∀ j (hj : j < k), p (l.get ⟨j, Nat.lt_trans hj hk⟩) = false) →
    l.find? p = some (l.get ⟨k, hk⟩) := by
  induction l with
  | nil => intro k hk; exact absurd hk (Nat.not_lt_zero k)
  | cons a t ih =>
    intro k hk hpk hlt
    match k with
    | 0 => exact List.find?_cons_of_pos t hpk
    | Nat.succ k =>
      have ha : p a = false := hlt 0 (Nat.succ_pos k)
      rw [List.find?_cons_of_neg t (by simp [ha])]
      exact ih k (Nat.lt_of_succ_lt_succ hk) hpk
        (fun j hj => hlt (j + 1) (Nat.succ_lt_succ hj))

/-! ### Claim theorems -/

/-- C1: extract_intent first normalizes the message (trim, lower-case);
a pattern match anywhere in the table yields confidence exactly 1, the
keyword pass runs only when no pattern of any intent matched and yields
exactly 0.7, and otherwise the result is (Unknown, 0); the confidence is
always one of these three values. -/
theorem c1_confidence_tiers (m : Str) :
    extract_intent m = extract_intent_core (normalize m) ∧
    ((extract_intent m).2 = 1 ∨ (extract_intent m).2 = conf07 ∨
      (extract_intent m).2 = 0) ∧
    (∀ i, firstPatternIntent (normalize m) = some i →
      extract_intent m = (i, 1)) ∧
    ((∃ p, p ∈ INTENT_PATTERNS ∧ patternHit p.2 (normalize m) = true) →
      (extract_intent m).2 = 1) ∧
    (firstPatternIntent (normalize m) = none →
      ∀ i, firstKeywordIntent (normalize m) = some i →
      extract_intent m = (i, conf07)) ∧
    ((∀ p ∈ INTENT_PATTERNS, patternHit p.2 (normalize m) = false) →
      (∃ p, p ∈ INTENT_PATTERNS ∧ keywordHit p.2 (normalize m) = true) →
      (extract_intent m).2 = conf07) ∧
    ((∀ p ∈ INTENT_PATTERNS, patternHit p.2 (normalize m) = false) →
      (∀ p ∈ INTENT_PATTERNS, keywordHit p.2 (normalize m) = false) →
      extract_intent m = (Intent.UNKNOWN, 0)) := by
  rcases hp : INTENT_PATTERNS.find? (fun p => patternHit p.2 (normalize m))
    with _ | y
  · have hfp : firstPatternIntent (normalize m) = none := by
      simp [firstPatternIntent, hp]
    rcases hk : INTENT_PATTERNS.find? (fun p => keywordHit p.2 (normalize m))
      with _ | z
    · have hfk : firstKeywordIntent (normalize m) = none := by
        simp [firstKeywordIntent, hk]
      have e : extract_intent m = (Intent.UNKNOWN, 0) := by
        simp [extract_intent, extract_intent_core, hfp, hfk]
      refine ⟨rfl, Or.inr (Or.inr (by rw [e])), ?_, ?_, ?_, ?_, ?_⟩
      · intro i hi; rw [hfp] at hi; exact absurd hi (by simp)
      · intro hex
        rcases hex with ⟨p, hmem, hhit⟩
        have := List.find?_eq_none.mp hp p hmem
        simp [hhit] at this
      · intro _ i hi; rw [hfk] at hi; exact absurd hi (by simp)
      · intro _ hex
        rcases hex with ⟨p, hmem, hhit⟩
        have := List.find?_eq_none.mp hk p hmem
        simp [hhit] at this
      · intro _ _; exact e
    · have hfk : firstKeywordIntent (normalize m) = some z.1 := by
        simp [firstKeywordIntent, hk]
      have e : extract_intent m = (z.1, conf07) := by
        simp [extract_intent, extract_intent_core, hfp, hfk]
      refine ⟨rfl, Or.inr (Or.inl (by rw [e])), ?_, ?_, ?_, ?_, ?_⟩
      · intro i hi; rw [hfp] at hi; exact absurd hi (by simp)
      · intro hex
        rcases hex with ⟨p, hmem, hhit⟩
        have := List.find?_eq_none.mp hp p hmem
        simp [hhit] at this
      · intro _ i hi
        rw [hfk] at hi
        injection hi with hi
        rw [← hi]; exact e
      · intro _ _; rw [e]
      · intro _ hnone
        have := List.find?_some hk
        have hz := List.mem_of_find?_eq_some hk
        have := hnone z hz
        simp_all
  · have hfp : firstPatternIntent (normalize m) = some y.1 := by
      simp [firstPatternIntent, hp]
    have e : extract_intent m = (y.1, 1) := by
      simp [extract_intent, extract_intent_core, hfp]
    have hyhit : patternHit y.2 (normalize m) = true := by
      have := List.find?_some hp
      simpa using this
    have hymem : y ∈ INTENT_PATTERNS := List.mem_of_find?_eq_some hp
    refine ⟨rfl, Or.inl (by rw [e]), ?_, ?_, ?_, ?_, ?_⟩
    · intro i hi
      rw [hfp] at hi
      injection hi with hi
      rw [← hi]; exact e
    · intro _; rw [e]
    · intro h0; rw [hfp] at h0; exact absurd h0 (by simp)
    · intro hall _
      have := hall y hymem
      rw [this] at hyhit; exact absurd hyhit (by simp)
    · intro hall _
      have := hall y hymem
      rw [this] at hyhit; exact absurd hyhit (by simp)

/-- C2: extract_intent is a pure deterministic function of the message
text alone: identical inputs give identical outputs on every one of any
number of repeated calls, with no hidden state. -/
theorem c2_deterministic :
    (∀ (m : Str) (n : Nat),
      (List.replicate n m).map extract_intent =
        List.replicate n (extract_intent m)) ∧
    (∀ m₁ m₂ : Str, m₁ = m₂ → extract_intent m₁ = extract_intent m₂) := by
  refine ⟨fun m n => ?_, fun m₁ m₂ h => by rw [h]⟩
  simp

/-- C2 witness at a concrete message. -/
theorem c2_deterministic_witness :
    extract_intent "add buy groceries".data =
      extract_intent "add buy groceries".data :=
  c2_deterministic.2 _ _ rfl

/-- C3: intents are scanned in the fixed declaration order Add, List,
Get, Update, Delete, Complete; within each pass the earliest-declared
matching intent wins; in particular a message matching an Add pattern
yields (Add, 1) whatever later intents its text also satisfies. -/
theorem c3_declaration_order (m : Str) :
    INTENT_PATTERNS.map Prod.fst =
      [Intent.ADD, Intent.LIST, Intent.GET, Intent.UPDATE,
        Intent.DELETE, Intent.COMPLETE] ∧
    (∀ (k : Nat) (hk : k < INTENT_PATTERNS.length),
      patternHit (INTENT_PATTERNS.get ⟨k, hk⟩).2 (normalize m) = true →
      (∀ j (hj : j < k),
        patternHit (INTENT_PATTERNS.get ⟨j, Nat.lt_trans hj hk⟩).2
          (normalize m) = false) →
      extract_intent m = ((INTENT_PATTERNS.get ⟨k, hk⟩).1, 1)) ∧
    (∀ (k : Nat) (hk : k < INTENT_PATTERNS.length),
      (∀ p ∈ INTENT_PATTERNS, patternHit p.2 (normalize m) = false) →
      keywordHit (INTENT_PATTERNS.get ⟨k, hk⟩).2 (normalize m) = true →
      (∀ j (hj : j < k),
        keywordHit (INTENT_PATTERNS.get ⟨j, Nat.lt_trans hj hk⟩).2
          (normalize m) = false) →
      extract_intent m = ((INTENT_PATTERNS.get ⟨k, hk⟩).1, conf07)) ∧
    (∀ (h0 : 0 < INTENT_PATTERNS.length),
      patternHit (INTENT_PATTERNS.get ⟨0, h0⟩).2 (normalize m) = true →
      extract_intent m = (Intent.ADD, 1)) := by
  refine ⟨by decide, ?_, ?_, ?_⟩
  · intro k hk hpk hlt
    have hf := find?_eq_get_of_first INTENT_PATTERNS
      (fun p => patternHit p.2 (normalize m)) k hk hpk hlt
    have hfp : firstPatternIntent (normalize m) =
        some (INTENT_PATTERNS.get ⟨k, hk⟩).1 := by
      simp [firstPatternIntent, hf]
    simp [extract_intent, extract_intent_core, hfp]
  · intro k hk hall hkk hlt
    have hp : INTENT_PATTERNS.find?
        (fun p => patternHit p.2 (normalize m)) = none :=
      List.find?_eq_none.mpr (fun x hx => by simp [hall x hx])
    have hfp : firstPatternIntent (normalize m) = none := by
      simp [firstPatternIntent, hp]
    have hf := find?_eq_get_of_first INTENT_PATTERNS
      (fun p => keywordHit p.2 (normalize m)) k hk hkk hlt
    have hfk : firstKeywordIntent (normalize m) =
        some (INTENT_PATTERNS.get ⟨k, hk⟩).1 := by
      simp [firstKeywordIntent, hf]
    simp [extract_intent, extract_intent_core, hfp, hfk]
  · intro h0 hhit
    have hf := find?_eq_get_of_first INTENT_PATTERNS
      (fun p => patternHit p.2 (normalize m)) 0 h0 hhit
      (fun j hj => absurd hj (Nat.not_lt_zero j))
    have hfp : firstPatternIntent (normalize m) =
        some (INTENT_PATTERNS.get ⟨0, h0⟩).1 := by
      simp [firstPatternIntent, hf]
    have hadd : (INTENT_PATTERNS.get ⟨0, h0⟩).1 = Intent.ADD :=
      (by decide :
        (INTENT_PATTERNS.get ⟨0, (by decide : 0 < INTENT_PATTERNS.length)⟩).1
          = Intent.ADD)
    rw [hadd] at hfp
    simp [extract_intent, extract_intent_core, hfp]

/-- C3 witness: a message matching an Add pattern while also containing
keywords of the later List intent resolves to (Add, 1). -/
theorem c3_declaration_order_witness :
    extract_intent "add show my tasks".data = (Intent.ADD, 1) :=
  (c3_declaration_order "add show my tasks".data).2.2.2
    (by decide) (by decide)

/-- C9: a non-Unknown intent always comes with confidence 0.7 or 1, the
Unknown intent only with confidence 0; hence the orchestrator rejection
condition (Unknown or confidence below 0.5) holds exactly when the intent
is Unknown. -/
theorem c9_confidence_gate (m : Str) :
    ((extract_intent m).1 ≠ Intent.UNKNOWN →
      (extract_intent m).2 = conf07 ∨ (extract_intent m).2 = 1) ∧
    ((extract_intent m).1 = Intent.UNKNOWN → (extract_intent m).2 = 0) ∧
    (((extract_intent m).1 = Intent.UNKNOWN ∨
        (extract_intent m).2 < confHalf) ↔
      (extract_intent m).1 = Intent.UNKNOWN) := by
  rcases hp : INTENT_PATTERNS.find? (fun p => patternHit p.2 (normalize m))
    with _ | y
  · have hfp : firstPatternIntent (normalize m) = none := by
      simp [firstPatternIntent, hp]
    rcases hk : INTENT_PATTERNS.find? (fun p => keywordHit p.2 (normalize m))
      with _ | z
    · have hfk : firstKeywordIntent (normalize m) = none := by
        simp [firstKeywordIntent, hk]
      have e : extract_intent m = (Intent.UNKNOWN, 0) := by
        simp [extract_intent, extract_intent_core, hfp, hfk]
      rw [e]
      exact ⟨fun h => absurd rfl h, fun _ => rfl,
        ⟨fun _ => rfl, fun _ => Or.inl rfl⟩⟩
    · have hfk : firstKeywordIntent (normalize m) = some z.1 := by
        simp [firstKeywordIntent, hk]
      have e : extract_intent m = (z.1, conf07) := by
        simp [extract_intent, extract_intent_core, hfp, hfk]
      have hz : z.1 ≠ Intent.UNKNOWN :=
        intentTable_fst_ne_unknown z (List.mem_of_find?_eq_some hk)
      rw [e]
      refine ⟨fun _ => Or.inl rfl, fun h => absurd h hz, ?_⟩
      constructor
      · intro h
        rcases h with h | h
        · exact h
        · exact absurd h (show ¬ conf07 < confHalf by decide)
      · intro h; exact Or.inl h
  · have hfp : firstPatternIntent (normalize m) = some y.1 := by
      simp [firstPatternIntent, hp]
    have e : extract_intent m = (y.1, 1) := by
      simp [extract_intent, extract_intent_core, hfp]
    have hy : y.1 ≠ Intent.UNKNOWN :=
      intentTable_fst_ne_unknown y (List.mem_of_find?_eq_some hp)
    rw [e]
    refine ⟨fun _ => Or.inr rfl, fun h => absurd h hy, ?_⟩
    constructor
    · intro h
      rcases h with h | h
      · exact h
      · exact absurd h (show ¬ (1 : ℚ) < confHalf by decide)
    · intro h; exact Or.inl h

/-- C9 witness at concrete messages on both sides of the gate. -/
theorem c9_confidence_gate_witness :
    ((extract_intent "add buy groceries".data).2 = conf07 ∨
      (extract_intent "add buy groceries".data).2 = 1) ∧
    (extract_intent "qqq".data).2 = 0 :=
  ⟨(c9_confidence_gate "add buy groceries".data).1 (by decide),
    (c9_confidence_gate "qqq".data).2.1 (by decide)⟩

/-- C4: ADD parameter extraction: the first matching anchored pattern
supplies the trimmed title; otherwise the keyword fallback scan of the
source supplies it (placeholder included); the user identity is always
seeded; and the concrete instance of the spec holds. -/
theorem c4_add_parameter_extraction (uid input : Str) :
    (extract_parameters Intent.ADD input uid).user_id = uid ∧
    (∀ cap, addPatterns.findSome?
        (fun p => matchCap p (pyStrip (pyLower input))) = some cap →
      extract_parameters Intent.ADD input uid =
        { user_id := uid, title := some (pyStrip cap) }) ∧
    (addPatterns.findSome?
        (fun p => matchCap p (pyStrip (pyLower input))) = none →
      extract_parameters Intent.ADD input uid =
        { user_id := uid, title := some (fallbackScan fallbackKeywords input) }) ∧
    extract_parameters Intent.ADD "add buy milk at the store".data uid =
      { user_id := uid, title := some "buy milk at the store".data } := by
  refine ⟨?_, ?_, ?_, ?_⟩
  · rcases h : addPatterns.findSome?
        (fun p => matchCap p (pyStrip (pyLower input))) with _ | cap <;>
      simp [extract_parameters, h]
  · intro cap hc
    simp [extract_parameters, hc]
  · intro hn
    simp [extract_parameters, hn]
  · have hfs : addPatterns.findSome?
        (fun p => matchCap p (pyStrip (pyLower "add buy milk at the store".data)))
        = some "buy milk at the store".data := by decide
    have hstr : pyStrip "buy milk at the store".data
        = "buy milk at the store".data := by decide
    simp [extract_parameters, hfs, hstr]

/-- C4 witness: a pattern-branch instance and a fallback-branch instance
at concrete inputs. -/
theorem c4_add_parameter_extraction_witness :
    (addPatterns.findSome?
        (fun p => matchCap p (pyStrip (pyLower "task to xyz".data)))
        = some "xyz".data ∧
      extract_parameters Intent.ADD "task to xyz".data "u1".data =
        { user_id := "u1".data, title := some (pyStrip "xyz".data) }) ∧
    (addPatterns.findSome?
        (fun p => matchCap p (pyStrip (pyLower "make a task".data))) = none ∧
      extract_parameters Intent.ADD "make a task".data "u1".data =
        { user_id := "u1".data,
          title := some (fallbackScan fallbackKeywords "make a task".data) }) :=
  ⟨⟨by decide, (c4_add_parameter_extraction "u1".data "task to xyz".data).2.1
      "xyz".data (by decide)⟩,
    ⟨by decide, (c4_add_parameter_extraction "u1".data
      "make a task".data).2.2.1 (by decide)⟩⟩

/-- C5: when the extracted intent is Unknown or its confidence is below
0.5, process_message returns the fixed help text with an empty tool-call
list and performs no Task Store invocation at all. -/
theorem c5_low_confidence_reject (invoke : Str → ToolParams → ToolResult)
    (uid input : Str) (ictx : Bool)
    (h : (extract_intent input).1 = Intent.UNKNOWN ∨
      (extract_intent input).2 < confHalf) :
    process_message invoke uid input ictx =
      { response := helpText, tool_calls := [], invoked := [] } := by
  unfold process_message
  dsimp only
  split
  · rfl
  · next hcond => exact absurd h hcond

/-- C5 witness at a concrete unknown message. -/
theorem c5_low_confidence_reject_witness :
    process_message (fun _ _ => {}) "u1".data "hello".data false =
      { response := helpText, tool_calls := [], invoked := [] } :=
  c5_low_confidence_reject (fun _ _ => {}) "u1".data "hello".data false
    (Or.inl (by decide))

/-- C6: past the confidence gate, an error indicator from the Task Store
produces exactly the per-intent fallback string with an empty tool-call
list, a success produces exactly one record of tool name, parameters and
result, and no outcome ever returns more than one record. -/
theorem c6_tool_outcome (invoke : Str → ToolParams → ToolResult)
    (uid input : Str) (ictx : Bool) (intent : Intent) (conf : ℚ)
    (params : ToolParams) (tr : ToolResult)
    (hic : extract_intent input = (intent, conf))
    (hknown : ¬(intent = Intent.UNKNOWN ∨ conf < confHalf))
    (hparams : params =
      { extract_parameters intent input uid with user_id := uid })
    (htr : tr = invoke (get_tool_name intent) params) :
    (truthyStr tr.error = true →
      process_message invoke uid input ictx =
        { response := get_fallback_response intent, tool_calls := [],
          invoked := [(get_tool_name intent, params)] }) ∧
    (truthyStr tr.error = false →
      process_message invoke uid input ictx =
        { response := generate_response intent tr
            (if ictx && (tr.error = none : Bool) then some stubUserContext
              else none),
          tool_calls :=
            [{ tool := get_tool_name intent, parameters := params,
               result := tr }],
          invoked := [(get_tool_name intent, params)] }) ∧
    (∀ input2 : Str,
      (process_message invoke uid input2 ictx).tool_calls.length ≤ 1) := by
  subst hparams
  subst htr
  refine ⟨?_, ?_, ?_⟩
  · intro herr
    simp only [process_message, hic]
    rw [if_neg hknown]
    simp only [herr]
    rfl
  · intro hok
    simp only [process_message, hic]
    rw [if_neg hknown]
    simp only [hok]
    rfl
  · intro input2
    unfold process_message
    dsimp only
    split
    · simp
    · split <;> simp

/-- C6 witness: concrete error and success oracles on a concrete add
message. -/
theorem c6_tool_outcome_witness :
    (process_message (fun _ _ => { error := some "boom".data, code := some 500 })
        "u1".data "add buy milk".data false =
      { response := get_fallback_response Intent.ADD, tool_calls := [],
        invoked := [(get_tool_name Intent.ADD,
          { user_id := "u1".data, title := some "buy milk".data })] }) ∧
    (process_message (fun _ _ => { title := some "buy milk".data })
        "u1".data "add buy milk".data false =
      { response := generate_response Intent.ADD
          { title := some "buy milk".data } none,
        tool_calls :=
          [{ tool := get_tool_name Intent.ADD,
             parameters := { user_id := "u1".data,
                             title := some "buy milk".data },
             result := { title := some "buy milk".data } }],
        invoked := [(get_tool_name Intent.ADD,
          { user_id := "u1".data, title := some "buy milk".data })] }) := by
  constructor
  · have h := (c6_tool_outcome
      (fun _ _ => { error := some "boom".data, code := some 500 })
      "u1".data "add buy milk".data false Intent.ADD 1
      { user_id := "u1".data, title := some "buy milk".data }
      { error := some "boom".data, code := some 500 }
      (by decide) (by decide) (by decide) rfl).1 (by decide)
    exact h
  · have h := (c6_tool_outcome (fun _ _ => { title := some "buy milk".data })
      "u1".data "add buy milk".data false Intent.ADD 1
      { user_id := "u1".data, title := some "buy milk".data }
      { title := some "buy milk".data }
      (by decide) (by decide) (by decide) rfl).2.1 (by decide)
    simpa using h

/-- Inserting an element no larger than a pair of trailing elements keeps
the pair at the very end. -/
theorem orderedInsert_append_pair (x a b : Message) (ys : List Message)
    (hxa : x.created_at ≤ a.created_at) :
    List.orderedInsert (fun m1 m2 => m1.created_at ≤ m2.created_at) x
        (ys ++ [a, b]) =
      List.orderedInsert (fun m1 m2 => m1.created_at ≤ m2.created_at) x ys
        ++ [a, b] := by
  induction ys with
  | nil => simp [List.orderedInsert, hxa]
  | cons y ys ih =>
      by_cases h : x.created_at ≤ y.created_at
      · simp [List.orderedInsert, h]
      · simp [List.orderedInsert, h, ih]

/-- Sorting a list followed by two fresh rows with nondecreasing larger
timestamps keeps the fresh rows at the end, in order. -/
theorem sortByCreated_append_pair (l : List Message) (a b : Message)
    (ha : ∀ x ∈ l, x.created_at ≤ a.created_at)
    (hab : a.created_at ≤ b.created_at) :
    sortByCreated (l ++ [a, b]) = sortByCreated l ++ [a, b] := by
  induction l with
  | nil => simp [sortByCreated, List.insertionSort, List.orderedInsert, hab]
  | cons x l ih =>
      have hx : x.created_at ≤ a.created_at := ha x (List.mem_cons_self x l)
      have ih2 := ih (fun y hy => ha y (List.mem_cons_of_mem x hy))
      simp only [List.cons_append, sortByCreated, List.insertionSort,
        List.append_eq] at ih2 ⊢
      rw [ih2]
      exact orderedInsert_append_pair x a b _ hx

/-- C7: load_conversation fails with the not-found error when no
conversation has the identifier, fails with the data-free access-denied
error when the owner differs from the caller, and on success returns the
owned conversation together with exactly its messages sorted by creation
time ascending. -/
theorem c7_load_conversation (db : DB) (cid : Nat) (uid : Str) :
    (db.conversations.find? (fun c => c.id = cid) = none →
      load_conversation db cid uid = Except.error LoadError.notFound) ∧
    (∀ c, db.conversations.find? (fun c => c.id = cid) = some c →
      c.user_id ≠ uid →
      load_conversation db cid uid = Except.error LoadError.accessDenied) ∧
    (∀ c msgs, load_conversation db cid uid = Except.ok (c, msgs) →
      c.user_id = uid ∧
      db.conversations.find? (fun x => x.id = cid) = some c ∧
      msgs.Perm (db.messages.filter (fun m => m.conversation_id = cid)) ∧
      msgs.Pairwise (fun m1 m2 => m1.created_at ≤ m2.created_at) ∧
      (∀ m ∈ msgs, m.conversation_id = cid)) := by
  rcases h : db.conversations.find? (fun c => c.id = cid) with _ | c0
  · refine ⟨fun _ => by simp [load_conversation, h], ?_, ?_⟩
    · intro c hc
      rw [h] at hc
      exact absurd hc (by simp)
    · intro c msgs hl
      simp [load_conversation, h] at hl
  · by_cases hu : c0.user_id = uid
    · have e : load_conversation db cid uid =
          Except.ok (c0, sortByCreated (db.messages.filter
            (fun m => m.conversation_id = cid))) := by
        simp [load_conversation, h, hu]
      refine ⟨?_, ?_, ?_⟩
      · intro h0; rw [h0] at h; exact absurd h (by simp)
      · intro c hc hne
        rw [h] at hc
        injection hc with hc
        subst hc
        exact absurd hu hne
      · intro c msgs hl
        rw [e] at hl
        injection hl with hl
        rw [Prod.mk.injEq] at hl
        obtain ⟨hc, hm⟩ := hl
        subst hc
        subst hm
        refine ⟨hu, h, ?_, ?_, ?_⟩
        · exact List.perm_insertionSort _ _
        · exact List.sorted_insertionSort _ _
        · intro m hm
          have hmem : m ∈ db.messages.filter
              (fun m => m.conversation_id = cid) :=
            (List.perm_insertionSort _ _).subset hm
          have := List.of_mem_filter hmem
          exact of_decide_eq_true this
    · have e : load_conversation db cid uid =
          Except.error LoadError.accessDenied := by
        simp [load_conversation, h, hu]
      refine ⟨?_, fun _ _ _ => e, ?_⟩
      · intro h0; rw [h0] at h; exact absurd h (by simp)
      · intro c msgs hl
        rw [e] at hl
        exact absurd hl (by simp)

/-- C7 witness: a missing conversation, a cross-user access, and a
successful owned load with two stored messages, at concrete data. -/
theorem c7_load_conversation_witness :
    (load_conversation { conversations := [], messages := [] } 1 "alice".data
      = Except.error LoadError.notFound) ∧
    (load_conversation
        { conversations := [{ id := 1, user_id := "alice".data,
                              created_at := 0, updated_at := 0 }],
          messages := [] } 1 "bob".data
      = Except.error LoadError.accessDenied) ∧
    ("alice".data = "alice".data ∧
      List.find? (fun x => x.id = 1)
          [({ id := 1, user_id := "alice".data, created_at := 0,
              updated_at := 0 } : Conversation)] =
        some { id := 1, user_id := "alice".data, created_at := 0,
               updated_at := 0 } ∧
      List.Perm
        [({ id := 11, conversation_id := 1, user_id := "alice".data,
            sender := "user".data, content := "hi".data, tool_calls := none,
            created_at := 5 } : Message),
          { id := 10, conversation_id := 1, user_id := "alice".data,
            sender := "assistant".data, content := "yo".data,
            tool_calls := none, created_at := 7 }]
        (List.filter (fun m => m.conversation_id = 1)
          [({ id := 10, conversation_id := 1, user_id := "alice".data,
              sender := "assistant".data, content := "yo".data,
              tool_calls := none, created_at := 7 } : Message),
            { id := 11, conversation_id := 1, user_id := "alice".data,
              sender := "user".data, content := "hi".data,
              tool_calls := none, created_at := 5 }]) ∧
      List.Pairwise (fun m1 m2 => m1.created_at ≤ m2.created_at)
        [({ id := 11, conversation_id := 1, user_id := "alice".data,
            sender := "user".data, content := "hi".data, tool_calls := none,
            created_at := 5 } : Message),
          { id := 10, conversation_id := 1, user_id := "alice".data,
            sender := "assistant".data, content := "yo".data,
            tool_calls := none, created_at := 7 }] ∧
      (∀ m ∈ [({ id := 11, conversation_id := 1, user_id := "alice".data,
                 sender := "user".data, content := "hi".data,
                 tool_calls := none, created_at := 5 } : Message),
               { id := 10, conversation_id := 1, user_id := "alice".data,
                 sender := "assistant".data, content := "yo".data,
                 tool_calls := none, created_at := 7 }],
        m.conversation_id = 1)) :=
  ⟨(c7_load_conversation { conversations := [], messages := [] } 1
      "alice".data).1 (by decide),
    (c7_load_conversation
      { conversations := [{ id := 1, user_id := "alice".data,
                            created_at := 0, updated_at := 0 }],
        messages := [] } 1 "bob".data).2.1
      { id := 1, user_id := "alice".data, created_at := 0, updated_at := 0 }
      (by decide) (by decide),
    (c7_load_conversation
      { conversations := [{ id := 1, user_id := "alice".data,
                            created_at := 0, updated_at := 0 }],
        messages := [{ id := 10, conversation_id := 1,
                       user_id := "alice".data, sender := "assistant".data,
                       content := "yo".data, tool_calls := none,
                       created_at := 7 },
                     { id := 11, conversation_id := 1,
                       user_id := "alice".data, sender := "user".data,
                       content := "hi".data, tool_calls := none,
                       created_at := 5 }] } 1 "alice".data).2.2
      { id := 1, user_id := "alice".data, created_at := 0, updated_at := 0 }
      [{ id := 11, conversation_id := 1, user_id := "alice".data,
         sender := "user".data, content := "hi".data, tool_calls := none,
         created_at := 5 },
       { id := 10, conversation_id := 1, user_id := "alice".data,
         sender := "assistant".data, content := "yo".data,
         tool_calls := none, created_at := 7 }]
      (by decide)⟩

/-- C8: persisting a user message then an assistant message with fresh,
increasing timestamps and reloading the conversation returns exactly the
previous history followed by the two new messages, contents intact. -/
theorem c8_roundtrip (db : DB) (cid : Nat) (uid : Str) (conv : Conversation)
    (c1 c2 : Str) (tc : Option (List ToolCallRecord)) (id1 id2 t1 t2 : Nat)
    (hconv : db.conversations.find? (fun c => c.id = cid) = some conv)
    (howner : conv.user_id = uid)
    (hfresh : ∀ m ∈ db.messages, m.conversation_id = cid →
      m.created_at < t1)
    (ht : t1 < t2) :
    load_conversation
        ((persist_assistant_message
          (persist_user_message db cid uid c1 id1 t1).1
          cid uid c2 tc id2 t2).1) cid uid =
      Except.ok (conv,
        sortByCreated (db.messages.filter (fun m => m.conversation_id = cid))
          ++ [(persist_user_message db cid uid c1 id1 t1).2,
              (persist_assistant_message
                (persist_user_message db cid uid c1 id1 t1).1
                cid uid c2 tc id2 t2).2]) ∧
    (persist_user_message db cid uid c1 id1 t1).2.content = c1 ∧
    (persist_user_message db cid uid c1 id1 t1).2.sender = "user".data ∧
    (persist_assistant_message (persist_user_message db cid uid c1 id1 t1).1
      cid uid c2 tc id2 t2).2.content = c2 ∧
    (persist_assistant_message (persist_user_message db cid uid c1 id1 t1).1
      cid uid c2 tc id2 t2).2.sender = "assistant".data ∧
    (persist_assistant_message (persist_user_message db cid uid c1 id1 t1).1
      cid uid c2 tc id2 t2).2.tool_calls = tc := by
  refine ⟨?_, rfl, rfl, rfl, rfl, rfl⟩
  unfold persist_user_message persist_assistant_message load_conversation
  dsimp only
  rw [hconv]
  dsimp only
  rw [if_neg (by simp [howner])]
  have hm1 : ∀ r : Message,
      r ∈ db.messages.filter (fun m => m.conversation_id = cid) →
      r.created_at ≤ t1 := by
    intro r hr
    obtain ⟨hmem, hp⟩ := List.mem_filter.mp hr
    exact Nat.le_of_lt (hfresh r hmem (of_decide_eq_true hp))
  have hfil : (db.messages
        ++ ([{ id := id1, conversation_id := cid, user_id := uid,
               sender := "user".data, content := c1, tool_calls := none,
               created_at := t1 }] : List Message)
        ++ ([{ id := id2, conversation_id := cid, user_id := uid,
               sender := "assistant".data, content := c2, tool_calls := tc,
               created_at := t2 }] : List Message)).filter
          (fun m => m.conversation_id = cid)
      = db.messages.filter (fun m => m.conversation_id = cid)
        ++ ([{ id := id1, conversation_id := cid, user_id := uid,
               sender := "user".data, content := c1, tool_calls := none,
               created_at := t1 },
             { id := id2, conversation_id := cid, user_id := uid,
               sender := "assistant".data, content := c2, tool_calls := tc,
               created_at := t2 }] : List Message) := by
    simp [List.filter_append, List.filter_cons]
  rw [hfil]
  rw [sortByCreated_append_pair _ _ _ hm1 (Nat.le_of_lt ht)]

/-- C8 witness: a conversation with one earlier message round-trips two
freshly persisted turns at concrete data. -/
theorem c8_roundtrip_witness :
    load_conversation
        ((persist_assistant_message
          (persist_user_message
            { conversations := [{ id := 1, user_id := "alice".data,
                                  created_at := 0, updated_at := 0 }],
              messages := [{ id := 10, conversation_id := 1,
                             user_id := "alice".data, sender := "user".data,
                             content := "old".data, tool_calls := none,
                             created_at := 3 }] }
            1 "alice".data "hi".data 11 8).1
          1 "alice".data "ok".data none 12 9).1) 1 "alice".data =
      Except.ok
        ({ id := 1, user_id := "alice".data, created_at := 0,
           updated_at := 0 },
          sortByCreated (List.filter (fun m => m.conversation_id = 1)
            [{ id := 10, conversation_id := 1, user_id := "alice".data,
               sender := "user".data, content := "old".data,
               tool_calls := none, created_at := 3 }])
            ++ [(persist_user_message
                  { conversations := [{ id := 1, user_id := "alice".data,
                                        created_at := 0, updated_at := 0 }],
                    messages := [{ id := 10, conversation_id := 1,
                                   user_id := "alice".data,
                                   sender := "user".data,
                                   content := "old".data, tool_calls := none,
                                   created_at := 3 }] }
                  1 "alice".data "hi".data 11 8).2,
                (persist_assistant_message
                  (persist_user_message
                    { conversations := [{ id := 1, user_id := "alice".data,
                                          created_at := 0, updated_at := 0 }],
                      messages := [{ id := 10, conversation_id := 1,
                                     user_id := "alice".data,
                                     sender := "user".data,
                                     content := "old".data,
                                     tool_calls := none,
                                     created_at := 3 }] }
                    1 "alice".data "hi".data 11 8).1
                  1 "alice".data "ok".data none 12 9).2]) :=
  (c8_roundtrip
    { conversations := [{ id := 1, user_id := "alice".data,
                          created_at := 0, updated_at := 0 }],
      messages := [{ id := 10, conversation_id := 1,
                     user_id := "alice".data, sender := "user".data,
                     content := "old".data, tool_calls := none,
                     created_at := 3 }] }
    1 "alice".data
    { id := 1, user_id := "alice".data, created_at := 0, updated_at := 0 }
    "hi".data "ok".data none 11 12 8 9
    (by decide) (by decide) (by decide) (by decide)).1

/-- Replacing one row preserves the table length. -/
theorem replaceFirst_length (p : Task → Bool) (new : Task) :
    ∀ l : List Task, (replaceFirst p new l).length = l.length := by
  intro l
  induction l with
  | nil => rfl
  | cons a t ih =>
      by_cases h : p a = true <;> simp [replaceFirst, h, ih]

/-- Row k of the updated table is either the original row, or the first
matching row (the one find? returns) replaced by the new row. -/
theorem replaceFirst_getElem? (p : Task → Bool) (new : Task) :
    ∀ (l : List Task) (t : Task), l.find? p = some t →
    ∀ k : Nat, (replaceFirst p new l)[k]? = l[k]? ∨
      (∃ old, l[k]? = some old ∧ p old = true ∧ old = t ∧
        (replaceFirst p new l)[k]? = some new) := by
  intro l
  induction l with
  | nil => intro t hf; exact absurd hf (by simp)
  | cons a l ih =>
      intro t hf k
      by_cases hpa : p a = true
      · have ht : a = t := by
          rw [List.find?_cons_of_pos _ hpa] at hf
          injection hf
        have hrep : replaceFirst p new (a :: l) = new :: l := by
          simp [replaceFirst, hpa]
        match k with
        | 0 =>
            right
            exact ⟨a, by simp, hpa, ht, by simp [hrep]⟩
        | Nat.succ k =>
            left
            simp [hrep]
      · have hrep : replaceFirst p new (a :: l) = a :: replaceFirst p new l := by
          simp [replaceFirst, hpa]
        rw [List.find?_cons_of_neg _ (by simp [hpa])] at hf
        match k with
        | 0 => left; simp [hrep]
        | Nat.succ k =>
            rcases ih t hf k with hcase | ⟨old, h1, h2, h3, h4⟩
            · left; simp [hrep, hcase]
            · right; exact ⟨old, by simp [h1], h2, h3, by simp [hrep, h4]⟩

/-- Searching among only the matching rows finds the same row. -/
theorem find?_filter_self (p : Task → Bool) :
    ∀ l : List Task, (l.filter p).find? p = l.find? p := by
  intro l
  induction l with
  | nil => rfl
  | cons a t ih =>
      by_cases h : p a = true
      · rw [List.filter_cons_of_pos h, List.find?_cons_of_pos _ h,
          List.find?_cons_of_pos _ h]
      · rw [List.filter_cons_of_neg (by simp [h]),
          List.find?_cons_of_neg _ (by simp [h]), ih]

/-- C10: a successful complete_task sets only the completion flag and the
update timestamp of the task with the given identifier and owner; every
other row is untouched, the table length is preserved, the returned
payload keeps all identity fields, and the outcome is unchanged when every
non-matching row is removed beforehand (nothing else is read). -/
theorem c10_complete_task_frame (tasks : List Task) (now : Nat) (uid : Str)
    (tid : Str) (completed : Option Bool) (t : Task) (n : Int)
    (hparse : pyInt tid = some n)
    (hfind : tasks.find? (taskMatch n uid) = some t) :
    (complete_task tasks now uid (some tid) completed).2 =
      CompleteResult.ok
        { t with is_completed := completed.getD true, updated_at := now } ∧
    (∀ payload, (complete_task tasks now uid (some tid) completed).2 =
        CompleteResult.ok payload →
      payload.id = t.id ∧ payload.user_id = t.user_id ∧
      payload.title = t.title ∧ payload.description = t.description ∧
      payload.created_at = t.created_at ∧
      payload.is_completed = completed.getD true ∧
      payload.updated_at = now) ∧
    (complete_task tasks now uid (some tid) completed).1.length =
      tasks.length ∧
    (∀ k : Nat,
      (complete_task tasks now uid (some tid) completed).1[k]? = tasks[k]? ∨
      (∃ old, tasks[k]? = some old ∧ taskMatch n uid old = true ∧
        (complete_task tasks now uid (some tid) completed).1[k]? =
          some { old with
                   is_completed := completed.getD true,
                   updated_at := now })) ∧
    (complete_task (tasks.filter (taskMatch n uid)) now uid (some tid)
        completed).2 =
      (complete_task tasks now uid (some tid) completed).2 := by
  have e : complete_task tasks now uid (some tid) completed =
      (replaceFirst (taskMatch n uid)
        { t with is_completed := completed.getD true, updated_at := now }
        tasks,
       CompleteResult.ok
         { t with is_completed := completed.getD true, updated_at := now })
      := by
    simp [complete_task, hparse, hfind]
  have efil : complete_task (tasks.filter (taskMatch n uid)) now uid
      (some tid) completed =
      (replaceFirst (taskMatch n uid)
        { t with is_completed := completed.getD true, updated_at := now }
        (tasks.filter (taskMatch n uid)),
       CompleteResult.ok
         { t with is_completed := completed.getD true, updated_at := now })
      := by
    simp [complete_task, hparse, find?_filter_self, hfind]
  refine ⟨by rw [e], ?_, ?_, ?_, ?_⟩
  · intro payload hp
    rw [e] at hp
    injection hp with hp
    subst hp
    exact ⟨rfl, rfl, rfl, rfl, rfl, rfl, rfl⟩
  · rw [e]
    exact replaceFirst_length _ _ tasks
  · intro k
    rw [e]
    rcases replaceFirst_getElem? (taskMatch n uid)
        { t with is_completed := completed.getD true, updated_at := now }
        tasks t hfind k with hcase | ⟨old, h1, h2, h3, h4⟩
    · exact Or.inl hcase
    · refine Or.inr ⟨old, h1, h2, ?_⟩
      rw [h4, h3]
  · rw [e, efil]

/-- C10 witness: completing task 1 of one user while a task of another user is present, at
concrete data. -/
theorem c10_complete_task_frame_witness :
    (complete_task
        [{ id := 1, user_id := "alice".data, title := "milk".data,
           description := none, is_completed := false, created_at := 2,
           updated_at := 3 },
         { id := 2, user_id := "bob".data, title := "eggs".data,
           description := none, is_completed := false, created_at := 4,
           updated_at := 5 }] 9 "alice".data (some "1".data) none).2 =
      CompleteResult.ok
        { id := 1, user_id := "alice".data, title := "milk".data,
          description := none, is_completed := true, created_at := 2,
          updated_at := 9 } :=
  (c10_complete_task_frame
    [{ id := 1, user_id := "alice".data, title := "milk".data,
       description := none, is_completed := false, created_at := 2,
       updated_at := 3 },
     { id := 2, user_id := "bob".data, title := "eggs".data,
       description := none, is_completed := false, created_at := 4,
       updated_at := 5 }] 9 "alice".data "1".data none
    { id := 1, user_id := "alice".data, title := "milk".data,
      description := none, is_completed := false, created_at := 2,
      updated_at := 3 } 1 (by decide) (by decide)).1

end Taskify
